import Mathlib

/-!
Shallow embedding of `src/programm/main.py` (an A/B-test analysis script over
user-level advertising records) together with proofs about the claims of its
specification.  The embedding covers `preprocess_data`, `calculate_metrics`
and `statistical_analysis`; the plotting and file-loading wrappers carry no
decision logic and are outside every claim.

Machine reals (pandas/scipy floats) are modelled by exact rationals `ℚ`; the
special float values produced by pandas division (`NaN`, `±inf`) are modelled
explicitly by the `PdVal` type.  The numeric routines imported from scipy and
statsmodels (`shapiro`, `ttest_ind`, `mannwhitneyu`, the normal cdf/quantile
and the square root inside the z-test and confidence-interval formulas) are
not part of this repository; they are modelled by an explicit `StatsLib`
parameter, except for `proportions_ztest` and `proportion_confint`, whose
documented closed-form formulas (pooled two-proportion z-test, normal
approximation interval) are transcribed directly, on top of the abstract
square root and normal-distribution functions of `StatsLib`.
-/

set_option maxRecDepth 100000

namespace BusinessSite

/-- Dynamic (Python-level) value stored in the `converted` column of a raw
record.  Raw CSV data may hold booleans, integers or strings there, or a
missing value (`NaN`); `preprocess_data` coerces the column with
`astype(bool)`. -/
inductive PyVal where
  | bool (b : Bool)
  | int (n : Int)
  | str (s : String)
  | none
deriving DecidableEq

/-- Whether the value is a missing value (pandas `NaN`), as seen by
`isnull`/`dropna`. -/
def PyVal.isNone : PyVal → Bool
  | .none => true
  | _ => false

/-- Python's `astype(bool)` coercion: integers are truthy iff nonzero,
strings iff nonempty, and `NaN` is truthy (this last case is never reached in
the pipeline because `dropna` runs first). -/
def PyVal.astypeBool : PyVal → PyVal
  | .bool b => .bool b
  | .int n => .bool (n != 0)
  | .str s => .bool (s != "")
  | .none => .bool true

/-- Numeric view of a `converted` value, as used by `sum()` and by the float
coercion scipy applies before `shapiro`: `True ↦ 1`, `False ↦ 0`, an integer
to itself.  (After preprocessing the column only holds booleans.) -/
def PyVal.asQ : PyVal → ℚ
  | .bool b => if b then 1 else 0
  | .int n => (n : ℚ)
  | .str _ => 0
  | .none => 0

/-- One row of the input table (`data.csv`).  `user_id` and `test_group` are
modelled directly as strings (their `astype(str)` / `astype('category')`
coercions are value-preserving on this representation); `converted` keeps the
dynamic Python value so that the `astype(bool)` coercion is observable.  The
remaining columns are the extended metric columns aggregated by
`calculate_metrics`. -/
structure Record where
  user_id : String
  test_group : String
  converted : PyVal
  total_ads : ℚ
  session_duration : ℚ
  session_id : String
  pages_viewed : ℚ
  age : ℚ
  returning_user : Bool
  target_page_reached : Bool
deriving DecidableEq

/-- Column coercions of `preprocess_data` (lines 40-42): `astype(str)` on
`user_id` and `astype('category')` on `test_group` preserve the string
values, `astype(bool)` rewrites `converted`. -/
def coerceRecord (r : Record) : Record :=
  { r with converted := r.converted.astypeBool }

/-- Rows surviving `data.dropna()`: rows whose `converted` value is missing
are removed.  (The script only calls `dropna` when some null is present; on
null-free data the branch is skipped and the row list is unchanged, which is
the same value.) -/
def dropnaRows (data : List Record) : List Record :=
  data.filter (fun r => !r.converted.isNone)

/-- The record list after missing-value removal and column coercion — the
data on which the duplicate-user exclusion of lines 44-47 operates. -/
def cleanedRows (data : List Record) : List Record :=
  (dropnaRows data).map coerceRecord

/-- Number of distinct group labels a given `user_id` appears under:
`data.groupby('user_id')['test_group'].nunique()` at line 45. -/
def nuniqueGroups (d : List Record) (uid : String) : ℕ :=
  (((d.filter (fun r => r.user_id == uid)).map (fun r => r.test_group)).dedup).length

/-- A preprocessed table.  `rows` are the surviving records; `cats` is the
category set attached to the `test_group` column by `astype('category')` at
line 41, i.e. the labels present after `dropna` but before the duplicate-user
exclusion.  `groupby` with a categorical key (default `observed=False`)
produces one aggregation row per category, including categories whose rows
were all excluded. -/
structure DataFrame where
  rows : List Record
  cats : List String
deriving DecidableEq

/-- `preprocess_data` (lines 33-49): drop rows with missing values, coerce
the column types, then remove every record whose `user_id` occurs under more
than one distinct `test_group` label. -/
def preprocess_data (data : List Record) : DataFrame :=
  let d := cleanedRows data
  { rows := d.filter (fun r => decide (nuniqueGroups d r.user_id ≤ 1)),
    cats := (d.map (fun r => r.test_group)).dedup }

/-- Result of a pandas float division: a finite value, `NaN` (`0/0` or
`0 * inf`) or a signed infinity (`x/0` with `x ≠ 0`). -/
inductive PdVal where
  | fin (q : ℚ)
  | nan
  | inf
  | ninf
deriving DecidableEq

/-- Pandas division of two (finite) numeric aggregates: division by zero
yields `NaN` when the numerator is zero and a signed infinity otherwise. -/
def qdiv (a b : ℚ) : PdVal :=
  if b = 0 then (if a = 0 then .nan else if 0 < a then .inf else .ninf)
  else .fin (a / b)

/-- Multiplication of a pandas value by a finite constant (used for the
`* 100` percentage forms): infinities keep or flip their sign, `0 * inf` is
`NaN`, and `NaN` is absorbing. -/
def PdVal.mulC (v : PdVal) (c : ℚ) : PdVal :=
  match v with
  | .fin q => .fin (q * c)
  | .nan => .nan
  | .inf => if 0 < c then .inf else if c = 0 then .nan else .ninf
  | .ninf => if 0 < c then .ninf else if c = 0 then .nan else .inf

/-- Per-group aggregation row produced by `calculate_metrics` (lines 52-85).
The first nine fields are the `agg` outputs of lines 54-64; the remaining
fields are the derived ratios of lines 67-83, named here by transliteration
of the Russian column labels used in the source. -/
structure GroupMetrics where
  total_users : ℕ
  total_converted : ℚ
  total_ads : ℚ
  session_duration : ℚ
  total_sessions : ℕ
  pages_viewed : ℚ
  avg_age : PdVal
  returning_users : ℚ
  target_page_reached : ℚ
  /-- «Конверсия» (line 67). -/
  konversiya : PdVal
  /-- «Среднее количество рекламы» (line 68). -/
  srednee_kolichestvo_reklamy : PdVal
  /-- «Среднее время на сайте» (line 69). -/
  srednee_vremya_na_sajte : PdVal
  /-- «Процент неактивных пользователей» (line 70). -/
  procent_neaktivnyh : PdVal
  /-- «Вовлеченность» (line 71). -/
  vovlechennost : PdVal
  /-- «Среднее количество сессий на пользователя» (line 72). -/
  srednee_sessij_na_polzovatelya : PdVal
  /-- «Конверсии на пользователя» (line 73). -/
  konversii_na_polzovatelya : PdVal
  /-- «Конверсии на одну рекламу» (line 74). -/
  konversii_na_reklamu : PdVal
  /-- «Среднее количество страниц на сессию» (line 75). -/
  srednee_stranic_na_sessiyu : PdVal
  /-- «Коэффициент активности пользователей» (line 76). -/
  koefficient_aktivnosti : PdVal
  /-- «Процент возвращающихся пользователей» (line 77). -/
  procent_vozvrashchayushchihsya : PdVal
  /-- «Процент достижения целевой страницы» (line 78). -/
  procent_dostizheniya_celevoj : PdVal
  /-- «Процент конверсий от общего числа пользователей» (line 79). -/
  procent_konversij : PdVal
  /-- «Среднее время на сессию» (line 80). -/
  srednee_vremya_na_sessiyu : PdVal
  /-- «Конверсии на сессию» (line 81). -/
  konversii_na_sessiyu : PdVal
  /-- «Среднее количество страниц на пользователя» (line 82). -/
  srednee_stranic_na_polzovatelya : PdVal
  /-- «Коэффициент активности пользователей (сессии)» (line 83). -/
  koefficient_aktivnosti_sessii : PdVal
deriving DecidableEq

/-- Aggregation of one group's rows, following lines 54-83: `nunique` counts
distinct values, `sum` adds (a boolean column sums as 0/1), `mean` is a
pandas division (so the mean of an empty group is `NaN`). -/
def aggGroup (rows : List Record) : GroupMetrics :=
  let total_users : ℕ := ((rows.map (fun r => r.user_id)).dedup).length
  let total_converted : ℚ := (rows.map (fun r => r.converted.asQ)).sum
  let total_ads : ℚ := (rows.map (fun r => r.total_ads)).sum
  let session_duration : ℚ := (rows.map (fun r => r.session_duration)).sum
  let total_sessions : ℕ := ((rows.map (fun r => r.session_id)).dedup).length
  let pages_viewed : ℚ := (rows.map (fun r => r.pages_viewed)).sum
  let returning_users : ℚ :=
    ((rows.filter (fun r => r.returning_user)).length : ℚ)
  let target_page_reached : ℚ :=
    ((rows.filter (fun r => r.target_page_reached)).length : ℚ)
  { total_users := total_users
    total_converted := total_converted
    total_ads := total_ads
    session_duration := session_duration
    total_sessions := total_sessions
    pages_viewed := pages_viewed
    avg_age := qdiv (rows.map (fun r => r.age)).sum (rows.length : ℚ)
    returning_users := returning_users
    target_page_reached := target_page_reached
    konversiya := qdiv total_converted (total_users : ℚ)
    srednee_kolichestvo_reklamy := qdiv total_ads (total_users : ℚ)
    srednee_vremya_na_sajte := qdiv session_duration (total_users : ℚ)
    procent_neaktivnyh :=
      (qdiv ((total_users : ℚ) - total_converted) (total_users : ℚ)).mulC 100
    vovlechennost := qdiv pages_viewed (total_users : ℚ)
    srednee_sessij_na_polzovatelya := qdiv (total_sessions : ℚ) (total_users : ℚ)
    konversii_na_polzovatelya := qdiv total_converted (total_users : ℚ)
    konversii_na_reklamu := qdiv total_converted total_ads
    srednee_stranic_na_sessiyu := qdiv pages_viewed (total_sessions : ℚ)
    koefficient_aktivnosti := qdiv total_converted (total_users : ℚ)
    procent_vozvrashchayushchihsya :=
      (qdiv returning_users (total_users : ℚ)).mulC 100
    procent_dostizheniya_celevoj :=
      (qdiv target_page_reached (total_users : ℚ)).mulC 100
    procent_konversij := (qdiv total_converted (total_users : ℚ)).mulC 100
    srednee_vremya_na_sessiyu := qdiv session_duration (total_sessions : ℚ)
    konversii_na_sessiyu := qdiv total_converted (total_sessions : ℚ)
    srednee_stranic_na_polzovatelya := qdiv pages_viewed (total_users : ℚ)
    koefficient_aktivnosti_sessii := qdiv (total_sessions : ℚ) (total_users : ℚ) }

/-- Rows of a given group: the boolean-mask selection
`data[data['test_group'] == g]` (also the row set `groupby` assigns to an
observed group `g`). -/
def groupRows (df : DataFrame) (g : String) : List Record :=
  df.rows.filter (fun r => r.test_group == g)

/-- `calculate_metrics` (lines 52-85): one aggregation row per category of
the `test_group` column — `groupby` on the categorical key includes
categories all of whose rows were removed by preprocessing. -/
def calculate_metrics (df : DataFrame) : List (String × GroupMetrics) :=
  df.cats.map (fun g => (g, aggGroup (groupRows df g)))

/-- State of the caller's frame after `preprocess_data` returns.  The column
coercions at lines 40-42 are in-place column assignments: when the input has
no missing values, `dropna` is skipped and they mutate the caller's object;
when a missing value is present, `dropna` first produces a fresh copy and the
caller's object is untouched.  The row filtering at lines 37 and 47 rebinds a
local name and never removes rows from the caller's object. -/
def callerInputAfter (data : List Record) : List Record :=
  if data.any (fun r => r.converted.isNone) then data else data.map coerceRecord

/-- Abstract interface to the numeric routines the script imports from scipy
and statsmodels.  `shapiro_p` is the p-value of the Shapiro-Wilk test (its
sample-size precondition is modelled separately, where the script calls it);
`ttest_ind_uneq` is Welch's `ttest_ind(·, ·, equal_var=False)` returning
`(statistic, p_value)`; `mannwhitneyu` likewise; `sqrtQ` is the square root
and `normCdf`/`normISF` the standard normal cdf and inverse survival
function used inside `proportions_ztest` and `proportion_confint`. -/
structure StatsLib where
  shapiro_p : List ℚ → ℚ
  ttest_ind_uneq : List ℚ → List ℚ → ℚ × ℚ
  mannwhitneyu : List ℚ → List ℚ → ℚ × ℚ
  sqrtQ : ℚ → ℚ
  normCdf : ℚ → ℚ
  normISF : ℚ → ℚ

/-- Pooled variance term of the two-proportion z-test:
`p̂ (1 - p̂) (1/n₁ + 1/n₂)` with `p̂ = (c₁ + c₂)/(n₁ + n₂)`. -/
def pooledVar (c1 c2 n1 n2 : ℚ) : ℚ :=
  ((c1 + c2) / (n1 + n2)) * (1 - (c1 + c2) / (n1 + n2)) * (1 / n1 + 1 / n2)

/-- statsmodels `proportions_ztest([c1, c2], [n1, n2])` with the default
two-sided alternative: the pooled-variance two-proportion z statistic and
`p = 2 · (1 - Φ(|z|))`. -/
def proportions_ztest (lib : StatsLib) (c1 c2 n1 n2 : ℚ) : ℚ × ℚ :=
  let z := (c1 / n1 - c2 / n2) / lib.sqrtQ (pooledVar c1 c2 n1 n2)
  (z, 2 * (1 - lib.normCdf |z|))

/-- statsmodels `proportion_confint(count, nobs, alpha, method='normal')`:
`q̂ ± isf(α/2) · sqrt(q̂ (1 - q̂) / nobs)`. -/
def proportion_confint (lib : StatsLib) (count nobs alpha : ℚ) : ℚ × ℚ :=
  let q := count / nobs
  let dist := lib.normISF (alpha / 2) * lib.sqrtQ (q * (1 - q) / nobs)
  (q - dist, q + dist)

/-- Python exceptions that `statistical_analysis` can let escape: the
`KeyError` raised by `groupby(...).get_group` on an absent or empty group,
and the `ValueError` scipy's `shapiro` raises on fewer than 3
observations. -/
inductive PyErr where
  | keyError (key : String)
  | valueError (msg : String)
deriving DecidableEq

/-- Message of the `ValueError` scipy raises for an undersized Shapiro-Wilk
sample. -/
def shapiroSizeMsg : String := "Data must be at least length 3."

/-- Result dictionary returned at lines 120-127, with each nested `dict`
modelled as an association list so that the set of keys is observable.  Note
the Mann-Whitney statistic is also stored under the key `"t_stat"` (the
script reuses the variable name at line 114). -/
structure AnalysisResult where
  conversion_test : List (String × ℚ)
  ads_test : List (String × ℚ)
  confidence_intervals : List (String × (ℚ × ℚ))
deriving DecidableEq

/-- Float view of a group's `converted` column, as summed at lines 100-102
and as passed (after scipy's float coercion) to `shapiro` at lines 96-97. -/
def groupConvertedQ (df : DataFrame) (g : String) : List ℚ :=
  (groupRows df g).map (fun r => r.converted.asQ)

/-- A group's `total_ads` column, selected at lines 106-107. -/
def groupAds (df : DataFrame) (g : String) : List ℚ :=
  (groupRows df g).map (fun r => r.total_ads)

/-- Branch condition of line 109: both Shapiro-Wilk p-values — computed on
the groups' `converted` columns at lines 96-97 — exceed 0.05. -/
def parametricChosen (lib : StatsLib) (df : DataFrame) : Prop :=
  1 / 20 < lib.shapiro_p (groupConvertedQ df "ad") ∧
    1 / 20 < lib.shapiro_p (groupConvertedQ df "psa")

instance (lib : StatsLib) (df : DataFrame) : Decidable (parametricChosen lib df) :=
  inferInstanceAs (Decidable (_ ∧ _))

/-- The successful payload of `statistical_analysis` (lines 95-127): the
conversion z-test on the summed `converted` columns, the adaptive exposure
test on the `total_ads` columns, and the two normal-approximation confidence
intervals at `alpha = 0.05`. -/
def analysisSuccess (lib : StatsLib) (df : DataFrame) : AnalysisResult :=
  let adC := groupConvertedQ df "ad"
  let psaC := groupConvertedQ df "psa"
  let zres := proportions_ztest lib adC.sum psaC.sum (adC.length : ℚ) (psaC.length : ℚ)
  let tp :=
    if parametricChosen lib df then
      lib.ttest_ind_uneq (groupAds df "ad") (groupAds df "psa")
    else
      lib.mannwhitneyu (groupAds df "ad") (groupAds df "psa")
  { conversion_test := [("z_stat", zres.1), ("p_value", zres.2)],
    ads_test := [("t_stat", tp.1), ("p_value", tp.2)],
    confidence_intervals :=
      [("ad_conversion", proportion_confint lib adC.sum (adC.length : ℚ) (1 / 20)),
       ("psa_conversion", proportion_confint lib psaC.sum (psaC.length : ℚ) (1 / 20))] }

/-- `statistical_analysis` (lines 88-127).  `get_group('ad')` /
`get_group('psa')` raise `KeyError` when the group has no rows (lines
92-93); `shapiro` raises `ValueError` on a group with fewer than 3 rows
(lines 96-97, with the `'ad'` group checked first); otherwise the analysis
completes with `analysisSuccess`. -/
def statistical_analysis (lib : StatsLib) (df : DataFrame) :
    Except PyErr AnalysisResult :=
  if groupRows df "ad" = [] then .error (.keyError "ad")
  else if groupRows df "psa" = [] then .error (.keyError "psa")
  else if (groupRows df "ad").length < 3 then .error (.valueError shapiroSizeMsg)
  else if (groupRows df "psa").length < 3 then .error (.valueError shapiroSizeMsg)
  else .ok (analysisSuccess lib df)

/-! ### Reference definitions written from the specification's words

These two definitions follow §4.3 of the spec verbatim, for the refinement
claims C4 and C7; they are to be compared with `proportions_ztest` and
`proportion_confint` above, which transcribe the statsmodels formulas the
code invokes. -/

/-- Reference pooled-variance two-proportion z-test, written from the spec:
"compute a z-statistic and two-sided p-value testing equality of conversion
proportions (pooled-variance two-proportion z-test)", i.e.
`z = (p₁ - p₂) / sqrt(p̂ (1 - p̂) (1/n₁ + 1/n₂))` with the two-sided normal
p-value `2 (1 - Φ(|z|))`. -/
def refZtestSpec (lib : StatsLib) (c1 c2 n1 n2 : ℚ) : ℚ × ℚ :=
  let p1 := c1 / n1
  let p2 := c2 / n2
  let phat := (c1 + c2) / (n1 + n2)
  let z := (p1 - p2) / lib.sqrtQ (phat * (1 - phat) * (1 / n1 + 1 / n2))
  (z, 2 * (1 - lib.normCdf |z|))

/-- Reference normal-approximation confidence interval, written from the
spec: "interval = point_estimate ± z_(1-α/2) · sqrt(p(1-p)/n)" (the
`1 - α/2` normal quantile is the inverse survival function at `α/2`). -/
def refConfintSpec (lib : StatsLib) (count nobs alpha : ℚ) : ℚ × ℚ :=
  let p := count / nobs
  let half := lib.normISF (alpha / 2) * lib.sqrtQ (p * (1 - p) / nobs)
  (p - half, p + half)

/-- Square of the pooled z statistic, free of the square root:
`(p₁ - p₂)² / (p̂ (1 - p̂) (1/n₁ + 1/n₂))`.  Used to pin the concrete value
of the statistic on the spec's scenario A. -/
def ztestStatSq (c1 c2 n1 n2 : ℚ) : ℚ :=
  (c1 / n1 - c2 / n2) ^ 2 / pooledVar c1 c2 n1 n2

deriving instance DecidableEq for Except

/-! ### Concrete inputs used by witnesses and counterexamples -/

/-- Record constructor with fixed extended-metric columns, for concrete test
data. -/
def mkRec (uid g : String) (c : PyVal) (ads : ℚ) : Record :=
  { user_id := uid, test_group := g, converted := c, total_ads := ads,
    session_duration := 2, session_id := uid, pages_viewed := 3, age := 30,
    returning_user := false, target_page_reached := false }

/-- A balanced six-record dataset: three `ad` users and three `psa` users,
with non-constant `converted` and `total_ads` columns. -/
def exRecords : List Record :=
  [mkRec "a1" "ad" (.bool true) 1, mkRec "a2" "ad" (.bool false) 2,
   mkRec "a3" "ad" (.bool true) 3, mkRec "p1" "psa" (.bool true) 4,
   mkRec "p2" "psa" (.bool false) 5, mkRec "p3" "psa" (.bool true) 6]

/-- The preprocessed form of `exRecords`. -/
def exDF : DataFrame := preprocess_data exRecords

/-- A simple concrete stats library for witnesses: every p-value is 1/2 and
the square root is modelled by a nonnegative stand-in. -/
def wLib : StatsLib :=
  { shapiro_p := fun _ => 1 / 2,
    ttest_ind_uneq := fun _ _ => (1, 1),
    mannwhitneyu := fun _ _ => (2, 2),
    sqrtQ := fun q => |q|,
    normCdf := fun _ => 1 / 2,
    normISF := fun _ => 49 / 25 }

/-- A stats library whose Shapiro-Wilk p-value is small exactly on samples
with at most two distinct values (as for a boolean 0/1 column) and large
otherwise — distinguishing the `converted` columns from the `total_ads`
columns of `exRecords`. -/
def sepLib : StatsLib :=
  { shapiro_p := fun xs => if xs.dedup.length ≤ 2 then 1 / 100 else 1 / 2,
    ttest_ind_uneq := fun _ _ => (7, 7),
    mannwhitneyu := fun _ _ => (9, 9),
    sqrtQ := fun q => |q|,
    normCdf := fun _ => 1 / 2,
    normISF := fun _ => 49 / 25 }

/-- A group's rows whose `converted` is not already boolean, e.g. the raw
integer 0/1 encoding of a CSV column. -/
def isBoolVal : PyVal → Bool
  | .bool _ => true
  | _ => false

/-- Records with duplicate rows for one user inside one group. -/
def dupRecords : List Record :=
  [mkRec "u1" "ad" (.bool true) 1, mkRec "u1" "ad" (.bool true) 1,
   mkRec "u2" "psa" (.bool false) 2]

/-- Records of a single user appearing in both groups: preprocessing removes
every row but the category set keeps both labels. -/
def bothGroupsRecords : List Record :=
  [mkRec "u1" "ad" (.bool true) 1, mkRec "u1" "psa" (.bool true) 1]

/-- A user under both group labels whose `ad` row has a missing `converted`
value. -/
def nullDupRecords : List Record :=
  [mkRec "u1" "ad" PyVal.none 1, mkRec "u1" "psa" (.bool true) 1]

/-- A user under both labels plus an untouched single-group user. -/
def multiGroupRecords : List Record :=
  [mkRec "u1" "ad" (.bool true) 1, mkRec "u1" "psa" (.bool false) 1,
   mkRec "u2" "ad" (.bool true) 2]

/-- A record whose `converted` column holds the integer 1. -/
def intConvRecords : List Record := [mkRec "u1" "ad" (.int 1) 2]

/-- Two `ad` rows and three `psa` rows: the `ad` sample is below the
Shapiro-Wilk minimum. -/
def smallAdRecords : List Record :=
  [mkRec "u1" "ad" (.bool true) 1, mkRec "u2" "ad" (.bool false) 2,
   mkRec "p1" "psa" (.bool true) 3, mkRec "p2" "psa" (.bool true) 4,
   mkRec "p3" "psa" (.bool false) 5]

/-- A dataset whose two group labels are `treatment` and `control`. -/
def tcRecords : List Record :=
  [mkRec "u1" "treatment" (.bool true) 1, mkRec "u2" "control" (.bool false) 2]

/-! ### Helper lemmas -/

lemma statistical_analysis_ok {lib : StatsLib} {df : DataFrame} {r : AnalysisResult}
    (h : statistical_analysis lib df = .ok r) : r = analysisSuccess lib df := by
  unfold statistical_analysis at h
  split_ifs at h
  exact (Except.ok.inj h).symm

lemma sum_nonneg_le_length (l : List ℚ) (h : ∀ x ∈ l, 0 ≤ x ∧ x ≤ 1) :
    0 ≤ l.sum ∧ l.sum ≤ (l.length : ℚ) := by
  induction l with
  | nil => simp
  | cons x xs ih =>
    obtain ⟨hx0, hx1⟩ := h x (List.mem_cons_self _ _)
    obtain ⟨h0, h1⟩ := ih (fun y hy => h y (List.mem_cons_of_mem _ hy))
    refine ⟨by simpa using add_nonneg hx0 h0, ?_⟩
    simp only [List.sum_cons, List.length_cons]
    push_cast
    linarith

lemma two_le_length_of_mem {α : Type} {l : List α} {a b : α}
    (ha : a ∈ l) (hb : b ∈ l) (hne : a ≠ b) : 2 ≤ l.length := by
  cases l with
  | nil => simp at ha
  | cons x xs =>
    rcases List.mem_cons.mp ha with rfl | ha'
    · rcases List.mem_cons.mp hb with rfl | hb'
      · exact absurd rfl hne
      · have := List.length_pos_of_mem hb'
        simp only [List.length_cons]
        omega
    · have := List.length_pos_of_mem ha'
      simp only [List.length_cons]
      omega

lemma coerce_eq_self (r : Record) (h : isBoolVal r.converted = true) :
    coerceRecord r = r := by
  obtain ⟨uid, g, c, ads, sd, sid, pv, a, ru, tp⟩ := r
  cases c
  · rfl
  all_goals simp [isBoolVal] at h

lemma map_coerce_id (l : List Record) (h : ∀ r ∈ l, isBoolVal r.converted = true) :
    l.map coerceRecord = l := by
  induction l with
  | nil => rfl
  | cons r rs ih =>
    simp only [List.map_cons]
    rw [coerce_eq_self r (h r (List.mem_cons_self _ _)),
      ih (fun x hx => h x (List.mem_cons_of_mem _ hx))]

lemma cleaned_converted_bool (data : List Record) :
    ∀ r ∈ cleanedRows data, ∃ b, r.converted = PyVal.bool b := by
  intro r hr
  rcases List.mem_map.mp hr with ⟨r', _hm, rfl⟩
  show ∃ b, r'.converted.astypeBool = PyVal.bool b
  cases r'.converted <;> exact ⟨_, rfl⟩

lemma rows_uid_nodup (data : List Record)
    (h : (data.map (fun r => r.user_id)).Nodup) :
    ((preprocess_data data).rows.map (fun r => r.user_id)).Nodup := by
  have h1 : ((dropnaRows data).map (fun r => r.user_id)).Nodup :=
    h.sublist (List.Sublist.map _ (List.filter_sublist _))
  have hcl : (cleanedRows data).map (fun r => r.user_id) =
      (dropnaRows data).map (fun r => r.user_id) := by
    show ((dropnaRows data).map coerceRecord).map _ = _
    rw [List.map_map]
    rfl
  have h2 : ((cleanedRows data).map (fun r => r.user_id)).Nodup := hcl ▸ h1
  exact h2.sublist (List.Sublist.map _ (List.filter_sublist _))

/-! ### Claim theorems -/

/-- C1, counterexample: on `exRecords` with a normality test whose p-value
is large on both groups' `total_ads` samples, both exposure-count normality
p-values exceed 0.05, the analysis completes, and yet the recorded exposure
test output is not the Welch output (the Mann-Whitney branch ran, because
the code feeds the `converted` columns — not the exposure counts — to the
normality test). -/
theorem C1_counterexample :
    (1 / 20 < sepLib.shapiro_p (groupAds exDF "ad") ∧
     1 / 20 < sepLib.shapiro_p (groupAds exDF "psa")) ∧
    statistical_analysis sepLib exDF = .ok (analysisSuccess sepLib exDF) ∧
    (analysisSuccess sepLib exDF).ads_test ≠
      [("t_stat", (sepLib.ttest_ind_uneq (groupAds exDF "ad") (groupAds exDF "psa")).1),
       ("p_value", (sepLib.ttest_ind_uneq (groupAds exDF "ad") (groupAds exDF "psa")).2)] := by
  with_unfolding_all decide

/-- C1 (amended): whenever the exposure-count significance test completes,
the Welch (unequal-variance) t-test on the raw `total_ads` values is selected
if and only if both groups' normality p-values exceed 0.05, where the
normality p-values are computed on the groups' `converted` columns (not on
the exposure counts); otherwise the Mann-Whitney U test runs on the same
`total_ads` values. -/
theorem C1_branch_on_converted_normality (lib : StatsLib) (df : DataFrame)
    (r : AnalysisResult) (h : statistical_analysis lib df = .ok r) :
    r.ads_test =
      if parametricChosen lib df then
        [("t_stat", (lib.ttest_ind_uneq (groupAds df "ad") (groupAds df "psa")).1),
         ("p_value", (lib.ttest_ind_uneq (groupAds df "ad") (groupAds df "psa")).2)]
      else
        [("t_stat", (lib.mannwhitneyu (groupAds df "ad") (groupAds df "psa")).1),
         ("p_value", (lib.mannwhitneyu (groupAds df "ad") (groupAds df "psa")).2)] := by
  rw [statistical_analysis_ok h]
  by_cases hp : parametricChosen lib df <;>
    simp [analysisSuccess, hp]

/-- C1, witness: the amended branch characterisation instantiated on a
completed concrete run. -/
theorem C1_branch_on_converted_normality_witness :
    statistical_analysis sepLib exDF = .ok (analysisSuccess sepLib exDF) ∧
    (analysisSuccess sepLib exDF).ads_test =
      (if parametricChosen sepLib exDF then
        [("t_stat", (sepLib.ttest_ind_uneq (groupAds exDF "ad") (groupAds exDF "psa")).1),
         ("p_value", (sepLib.ttest_ind_uneq (groupAds exDF "ad") (groupAds exDF "psa")).2)]
      else
        [("t_stat", (sepLib.mannwhitneyu (groupAds exDF "ad") (groupAds exDF "psa")).1),
         ("p_value", (sepLib.mannwhitneyu (groupAds exDF "ad") (groupAds exDF "psa")).2)]) :=
  ⟨by with_unfolding_all decide, C1_branch_on_converted_normality sepLib exDF _ (by with_unfolding_all decide)⟩

/-- C2, counterexample: a run of the exposure-count test that completes, yet
whose returned analysis dictionary has no `method_used` entry. -/
theorem C2_counterexample :
    statistical_analysis wLib exDF = .ok (analysisSuccess wLib exDF) ∧
    List.lookup "method_used" (analysisSuccess wLib exDF).ads_test = none := by
  with_unfolding_all decide

/-- C2 (amended): whenever the exposure-count test completes, the returned
`ads_test` dictionary records only the keys `t_stat` and `p_value`; it
contains no `method_used` field, so the branch taken is not recorded in the
output. -/
theorem C2_no_method_used_field (lib : StatsLib) (df : DataFrame)
    (r : AnalysisResult) (h : statistical_analysis lib df = .ok r) :
    r.ads_test.map Prod.fst = ["t_stat", "p_value"] ∧
    List.lookup "method_used" r.ads_test = none := by
  rw [statistical_analysis_ok h]
  exact ⟨rfl, rfl⟩

/-- C2, witness: the amended statement instantiated on a completed concrete
run. -/
theorem C2_no_method_used_field_witness :
    statistical_analysis sepLib exDF = .ok (analysisSuccess sepLib exDF) ∧
    ((analysisSuccess sepLib exDF).ads_test.map Prod.fst = ["t_stat", "p_value"] ∧
     List.lookup "method_used" (analysisSuccess sepLib exDF).ads_test = none) :=
  ⟨by with_unfolding_all decide, C2_no_method_used_field sepLib exDF _ (by with_unfolding_all decide)⟩

/-- C6: when both groups are present but either has fewer than 3
observations, the analysis stops with the error raised by the normality
check (`shapiro`'s undersized-sample `ValueError`) and produces no test
outcome — neither the parametric nor the non-parametric branch runs. -/
theorem C6_insufficient_sample (lib : StatsLib) (df : DataFrame)
    (had : groupRows df "ad" ≠ []) (hpsa : groupRows df "psa" ≠ [])
    (hlt : (groupRows df "ad").length < 3 ∨ (groupRows df "psa").length < 3) :
    statistical_analysis lib df = .error (.valueError shapiroSizeMsg) := by
  unfold statistical_analysis
  rw [if_neg had, if_neg hpsa]
  rcases hlt with h | h
  · rw [if_pos h]
  · by_cases h2 : (groupRows df "ad").length < 3
    · rw [if_pos h2]
    · rw [if_neg h2, if_pos h]

/-- C6, witness: a preprocessed dataset with a two-observation `ad` group
makes the analysis fail with the normality-check error. -/
theorem C6_insufficient_sample_witness :
    (groupRows (preprocess_data smallAdRecords) "ad" ≠ [] ∧
     groupRows (preprocess_data smallAdRecords) "psa" ≠ [] ∧
     (groupRows (preprocess_data smallAdRecords) "ad").length < 3) ∧
    statistical_analysis wLib (preprocess_data smallAdRecords) =
      .error (.valueError shapiroSizeMsg) :=
  ⟨by with_unfolding_all decide,
   C6_insufficient_sample wLib _ (by with_unfolding_all decide) (by with_unfolding_all decide) (Or.inl (by with_unfolding_all decide))⟩

/-- C10: when the `ad` group or the `psa` group has no rows — in particular
for any dataset using a different pair of group labels — the analysis fails
with the `KeyError` of `get_group` instead of producing test outcomes. -/
theorem C10_unknown_labels (lib : StatsLib) (df : DataFrame)
    (h : groupRows df "ad" = [] ∨ groupRows df "psa" = []) :
    ∃ s, statistical_analysis lib df = .error (.keyError s) := by
  unfold statistical_analysis
  by_cases h1 : groupRows df "ad" = []
  · exact ⟨"ad", by rw [if_pos h1]⟩
  · rcases h with h | h
    · exact absurd h h1
    · exact ⟨"psa", by rw [if_neg h1, if_pos h]⟩

/-- C10, witness: a `treatment`/`control` dataset makes the analysis fail
with a lookup error. -/
theorem C10_unknown_labels_witness :
    (groupRows (preprocess_data tcRecords) "ad" = [] ∨
     groupRows (preprocess_data tcRecords) "psa" = []) ∧
    ∃ s, statistical_analysis wLib (preprocess_data tcRecords) =
      .error (.keyError s) :=
  ⟨Or.inl (by with_unfolding_all decide), C10_unknown_labels wLib _ (Or.inl (by with_unfolding_all decide))⟩

/-- C4: for positive group sizes, the conversion-significance computation —
the pooled two-proportion z-test invoked through `proportions_ztest` — agrees
with a reference implementation of the pooled z-test formula written from the
spec, both in its statistic and in its two-sided p-value; moreover the
statistic satisfies the defining equation of the pooled formula,
`z · sqrt(p̂(1-p̂)(1/n₁+1/n₂)) = p₁ - p₂`. -/
theorem C4_pooled_ztest (lib : StatsLib) (c1 c2 n1 n2 : ℚ)
    (hn1 : 0 < n1) (hn2 : 0 < n2)
    (hs : lib.sqrtQ (pooledVar c1 c2 n1 n2) ≠ 0) :
    proportions_ztest lib c1 c2 n1 n2 = refZtestSpec lib c1 c2 n1 n2 ∧
    (proportions_ztest lib c1 c2 n1 n2).1 * lib.sqrtQ (pooledVar c1 c2 n1 n2) =
      c1 / n1 - c2 / n2 :=
  ⟨rfl, div_mul_cancel₀ _ hs⟩

/-- C4, witness: the agreement instantiated on the spec's scenario A
(1000 users / 120 conversions versus 1000 users / 100 conversions), together
with the exact value of the squared z statistic there, `2000/979`
(so `z = 1.42926…`, reproducible to 6 significant digits). -/
theorem C4_pooled_ztest_witness :
    ((0:ℚ) < 1000 ∧ wLib.sqrtQ (pooledVar 120 100 1000 1000) ≠ 0) ∧
    (proportions_ztest wLib 120 100 1000 1000 = refZtestSpec wLib 120 100 1000 1000 ∧
     (proportions_ztest wLib 120 100 1000 1000).1 * wLib.sqrtQ (pooledVar 120 100 1000 1000) =
       120 / 1000 - 100 / 1000) ∧
    ztestStatSq 120 100 1000 1000 = 2000 / 979 :=
  ⟨⟨by with_unfolding_all decide, by with_unfolding_all decide⟩,
   C4_pooled_ztest wLib 120 100 1000 1000 (by with_unfolding_all decide)
     (by with_unfolding_all decide) (by with_unfolding_all decide),
   by with_unfolding_all decide⟩

/-- C7: for a group with positive size, the confidence interval computed by
`proportion_confint` at significance level `alpha` is exactly the spec's
normal-approximation interval `p ± z_(1-α/2)·sqrt(p(1-p)/n)`, and its bounds
bracket the point estimate `count/nobs` (given that the normal quantile and
the square root are nonnegative, as they are for the real functions they
model). -/
theorem C7_confint_brackets (lib : StatsLib) (count nobs alpha : ℚ)
    (hn : 0 < nobs)
    (hz : 0 ≤ lib.normISF (alpha / 2))
    (hs : 0 ≤ lib.sqrtQ (count / nobs * (1 - count / nobs) / nobs)) :
    proportion_confint lib count nobs alpha = refConfintSpec lib count nobs alpha ∧
    (proportion_confint lib count nobs alpha).1 ≤ count / nobs ∧
    count / nobs ≤ (proportion_confint lib count nobs alpha).2 := by
  refine ⟨rfl, ?_, ?_⟩
  · exact sub_le_self _ (mul_nonneg hz hs)
  · exact le_add_of_nonneg_right (mul_nonneg hz hs)

/-- C7, witness: the bracketing instantiated at `count = 120`, `nobs = 1000`,
`alpha = 1/20` — the call the analysis makes for the `ad` group. -/
theorem C7_confint_brackets_witness :
    ((0:ℚ) < 1000 ∧ 0 ≤ wLib.normISF (1 / 20 / 2) ∧
     0 ≤ wLib.sqrtQ (120 / 1000 * (1 - 120 / 1000) / 1000)) ∧
    (proportion_confint wLib 120 1000 (1 / 20) = refConfintSpec wLib 120 1000 (1 / 20) ∧
     (proportion_confint wLib 120 1000 (1 / 20)).1 ≤ 120 / 1000 ∧
     (120 : ℚ) / 1000 ≤ (proportion_confint wLib 120 1000 (1 / 20)).2) :=
  ⟨by with_unfolding_all decide,
   C7_confint_brackets wLib 120 1000 (1 / 20) (by with_unfolding_all decide)
     (by with_unfolding_all decide) (by with_unfolding_all decide)⟩

/-- C5, counterexample: `bothGroupsRecords` preprocesses to a table whose
`ad` category has zero users; `calculate_metrics` does not fail — it returns
a metrics row for that group — and that row's conversion ratio is the `NaN`
produced by the 0/0 division, contradicting both halves of the claim (no
`InsufficientDataError` exists anywhere in the program). -/
theorem C5_counterexample :
    List.lookup "ad" (calculate_metrics (preprocess_data bothGroupsRecords)) =
      some (aggGroup []) ∧
    (aggGroup ([] : List Record)).konversiya = PdVal.nan := by
  with_unfolding_all decide

/-- C5 (amended): metrics aggregation never fails; for every group of the
aggregation whose user count is zero, the returned row's conversion ratio is
the pandas `NaN` (0/0), not a finite or zero ratio. -/
theorem C5_zero_users_nan (df : DataFrame) (g : String) (m : GroupMetrics)
    (hm : (g, m) ∈ calculate_metrics df) (h0 : m.total_users = 0) :
    m.konversiya = PdVal.nan := by
  rcases List.mem_map.mp hm with ⟨g', _hg', heq⟩
  have he2 : aggGroup (groupRows df g') = m := (Prod.ext_iff.mp heq).2
  subst he2
  have hnil : groupRows df g' = [] := by
    have h1 : ((groupRows df g').map (fun r => r.user_id)).dedup = [] :=
      List.length_eq_zero.mp h0
    have h2 : (groupRows df g').map (fun r => r.user_id) = [] :=
      (List.dedup_eq_nil _).mp h1
    exact List.map_eq_nil_iff.mp h2
  rw [hnil]
  with_unfolding_all decide

/-- C5, witness: the amended statement instantiated on the zero-user `ad`
group left behind by `bothGroupsRecords`. -/
theorem C5_zero_users_nan_witness :
    (("ad", aggGroup []) ∈ calculate_metrics (preprocess_data bothGroupsRecords) ∧
     (aggGroup ([] : List Record)).total_users = 0) ∧
    (aggGroup ([] : List Record)).konversiya = PdVal.nan :=
  ⟨⟨by with_unfolding_all decide, by with_unfolding_all decide⟩,
   C5_zero_users_nan (preprocess_data bothGroupsRecords) "ad" _
     (by with_unfolding_all decide) (by with_unfolding_all decide)⟩

/-- C9, counterexample: on a null-free input whose `converted` column holds
the integer 1, the caller's record list after `preprocess_data` differs from
the input — the in-place `astype(bool)` column assignment rewrote it to the
boolean `true`, so preprocessing is not a pure transformation of its
input. -/
theorem C9_counterexample :
    callerInputAfter intConvRecords ≠ intConvRecords ∧
    callerInputAfter intConvRecords = [mkRec "u1" "ad" (.bool true) 2] := by
  with_unfolding_all decide

/-- C9 (amended): when every input record's `converted` field is already
boolean (the declared type), the caller's input is unchanged after the call;
the row filtering itself is never in-place, so mutation can come only from
the column coercions. -/
theorem C9_pure_on_welltyped (data : List Record)
    (h : ∀ r ∈ data, isBoolVal r.converted = true) :
    callerInputAfter data = data := by
  unfold callerInputAfter
  by_cases hn : data.any (fun r => r.converted.isNone) = true
  · rw [if_pos hn]
  · rw [if_neg hn]
    exact map_coerce_id data h

/-- C9, witness: the amended statement instantiated on the boolean-typed
dataset `exRecords`. -/
theorem C9_pure_on_welltyped_witness :
    (∀ r ∈ exRecords, isBoolVal r.converted = true) ∧
    callerInputAfter exRecords = exRecords :=
  ⟨by with_unfolding_all decide,
   C9_pure_on_welltyped exRecords (by with_unfolding_all decide)⟩

/-- C8, counterexample: in `nullDupRecords` the identifier `u1` appears
under both group labels of the input, yet a record with `u1` survives
preprocessing — its `ad` row carries a missing `converted` value and is
removed by `dropna` before the duplicate check, so `u1` is single-group by
the time the exclusion runs. -/
theorem C8_counterexample :
    (∃ r1 ∈ nullDupRecords, ∃ r2 ∈ nullDupRecords,
      r1.user_id = "u1" ∧ r2.user_id = "u1" ∧ r1.test_group ≠ r2.test_group) ∧
    ∃ r ∈ (preprocess_data nullDupRecords).rows, r.user_id = "u1" := by
  with_unfolding_all decide

/-- C8 (amended): any identifier that appears under more than one distinct
group label among the records surviving missing-field removal is removed
entirely by preprocessing — no record with that identifier remains in the
output (hence it contributes to no group's counts). -/
theorem C8_multi_group_excluded (data : List Record) (uid : String)
    (h : ∃ r1 ∈ cleanedRows data, ∃ r2 ∈ cleanedRows data,
      r1.user_id = uid ∧ r2.user_id = uid ∧ r1.test_group ≠ r2.test_group) :
    ∀ r ∈ (preprocess_data data).rows, r.user_id ≠ uid := by
  rintro r hr heq
  obtain ⟨r1, hr1, r2, hr2, h1u, h2u, hne⟩ := h
  have hr' : r ∈ (cleanedRows data).filter
      (fun x => decide (nuniqueGroups (cleanedRows data) x.user_id ≤ 1)) := hr
  obtain ⟨_hrmem, hpred⟩ := List.mem_filter.mp hr'
  have hle : nuniqueGroups (cleanedRows data) r.user_id ≤ 1 :=
    of_decide_eq_true hpred
  have hg1 : r1.test_group ∈
      ((cleanedRows data).filter (fun x => x.user_id == r.user_id)).map
        (fun x => x.test_group) :=
    List.mem_map_of_mem _ (List.mem_filter.mpr ⟨hr1, by simp [h1u, heq]⟩)
  have hg2 : r2.test_group ∈
      ((cleanedRows data).filter (fun x => x.user_id == r.user_id)).map
        (fun x => x.test_group) :=
    List.mem_map_of_mem _ (List.mem_filter.mpr ⟨hr2, by simp [h2u, heq]⟩)
  have h2 : 2 ≤ nuniqueGroups (cleanedRows data) r.user_id :=
    two_le_length_of_mem (List.mem_dedup.mpr hg1) (List.mem_dedup.mpr hg2) hne
  omega

/-- C8, witness: the exclusion instantiated on `multiGroupRecords`, whose
identifier `u1` appears under both labels among the cleaned records. -/
theorem C8_multi_group_excluded_witness :
    (∃ r1 ∈ cleanedRows multiGroupRecords, ∃ r2 ∈ cleanedRows multiGroupRecords,
      r1.user_id = "u1" ∧ r2.user_id = "u1" ∧ r1.test_group ≠ r2.test_group) ∧
    ∀ r ∈ (preprocess_data multiGroupRecords).rows, r.user_id ≠ "u1" :=
  ⟨by with_unfolding_all decide,
   C8_multi_group_excluded multiGroupRecords "u1" (by with_unfolding_all decide)⟩

/-- C3, counterexample: a preprocessed dataset in which one user has two
converted rows inside the `ad` group; `calculate_metrics` reports
`total_users = 1` (distinct identifiers) but `total_converted = 2` (rows),
so `converted_count > user_count` and the conversion ratio is 2 > 1. -/
theorem C3_counterexample :
    List.lookup "ad" (calculate_metrics (preprocess_data dupRecords)) =
      some (aggGroup (groupRows (preprocess_data dupRecords) "ad")) ∧
    ((aggGroup (groupRows (preprocess_data dupRecords) "ad")).total_users : ℚ) <
      (aggGroup (groupRows (preprocess_data dupRecords) "ad")).total_converted ∧
    (aggGroup (groupRows (preprocess_data dupRecords) "ad")).konversiya =
      PdVal.fin 2 ∧ ¬ (2 : ℚ) ≤ 1 := by
  with_unfolding_all decide

lemma aggGroup_total_users (rows : List Record) :
    (aggGroup rows).total_users = ((rows.map (fun r => r.user_id)).dedup).length := rfl

lemma aggGroup_total_converted (rows : List Record) :
    (aggGroup rows).total_converted = (rows.map (fun r => r.converted.asQ)).sum := rfl

lemma aggGroup_konversiya (rows : List Record) :
    (aggGroup rows).konversiya =
      qdiv (aggGroup rows).total_converted ((aggGroup rows).total_users : ℚ) := rfl

/-- C3 (amended): on a preprocessed dataset whose input carries at most one
record per identifier, every group with at least one user satisfies
`converted_count ≤ user_count`, and its conversion rate is a finite ratio in
`[0, 1]`.  (Without the one-record-per-identifier hypothesis the claim fails,
and a group left with zero users has a `NaN` rate — see the counterexample
and C5.) -/
theorem C3_metrics_bounds (data : List Record) (g : String) (m : GroupMetrics)
    (hnd : (data.map (fun r => r.user_id)).Nodup)
    (hm : (g, m) ∈ calculate_metrics (preprocess_data data))
    (hpos : 0 < m.total_users) :
    m.total_converted ≤ (m.total_users : ℚ) ∧
    ∃ q, m.konversiya = PdVal.fin q ∧ 0 ≤ q ∧ q ≤ 1 := by
  rcases List.mem_map.mp hm with ⟨g', _hg', heq⟩
  have he2 : aggGroup (groupRows (preprocess_data data) g') = m :=
    (Prod.ext_iff.mp heq).2
  subst he2
  set GR := groupRows (preprocess_data data) g' with hGR
  have hnd2 : (GR.map (fun r => r.user_id)).Nodup :=
    (rows_uid_nodup data hnd).sublist (List.Sublist.map _ (List.filter_sublist _))
  have husers : (aggGroup GR).total_users = GR.length := by
    rw [aggGroup_total_users, hnd2.dedup, List.length_map]
  have hbnd : ∀ x ∈ GR.map (fun r => r.converted.asQ), 0 ≤ x ∧ x ≤ 1 := by
    intro x hx
    rcases List.mem_map.mp hx with ⟨r, hrmem, rfl⟩
    have hb : ∃ b, r.converted = PyVal.bool b := by
      apply cleaned_converted_bool data
      have h1 : r ∈ (preprocess_data data).rows := List.mem_of_mem_filter hrmem
      have h2 : r ∈ (cleanedRows data).filter
          (fun x => decide (nuniqueGroups (cleanedRows data) x.user_id ≤ 1)) := h1
      exact List.mem_of_mem_filter h2
    rcases hb with ⟨b, hb⟩
    rw [hb]
    cases b <;> norm_num [PyVal.asQ]
  have hsum := sum_nonneg_le_length _ hbnd
  have hle : (aggGroup GR).total_converted ≤ ((aggGroup GR).total_users : ℚ) := by
    rw [aggGroup_total_converted, husers]
    have := hsum.2
    rwa [List.length_map] at this
  have hu0 : (0 : ℚ) < ((aggGroup GR).total_users : ℚ) := by exact_mod_cast hpos
  refine ⟨hle, (aggGroup GR).total_converted / ((aggGroup GR).total_users : ℚ),
    ?_, ?_, ?_⟩
  · rw [aggGroup_konversiya]
    unfold qdiv
    rw [if_neg (ne_of_gt hu0)]
  · exact div_nonneg (by rw [aggGroup_total_converted]; exact hsum.1) (le_of_lt hu0)
  · exact (div_le_one hu0).mpr hle

/-- C3, witness: the amended bounds instantiated on the `ad` group of the
preprocessed `exRecords`. -/
theorem C3_metrics_bounds_witness :
    ((exRecords.map (fun r => r.user_id)).Nodup ∧
     ("ad", aggGroup (groupRows (preprocess_data exRecords) "ad")) ∈
       calculate_metrics (preprocess_data exRecords) ∧
     0 < (aggGroup (groupRows (preprocess_data exRecords) "ad")).total_users) ∧
    ((aggGroup (groupRows (preprocess_data exRecords) "ad")).total_converted ≤
      ((aggGroup (groupRows (preprocess_data exRecords) "ad")).total_users : ℚ) ∧
     ∃ q, (aggGroup (groupRows (preprocess_data exRecords) "ad")).konversiya =
       PdVal.fin q ∧ 0 ≤ q ∧ q ≤ 1) :=
  ⟨⟨by with_unfolding_all decide, by with_unfolding_all decide,
    by with_unfolding_all decide⟩,
   C3_metrics_bounds exRecords "ad" _ (by with_unfolding_all decide)
     (by with_unfolding_all decide) (by with_unfolding_all decide)⟩

end BusinessSite
